import Mathlib

/-!
Verification development for the `assistant` to-do application
(`assistant/data_model.py`, `assistant/persistence.py`, `assistant/task_screen.py`,
`assistant/review_screen.py`, `assistant/todo_app.py`).

The Python code is shallowly embedded: tasks are values, the mutable list
`TodoApp.tasks` together with the `ListView` selection index and the action
log become an explicit `AppState`, and in-place mutation of a task object is
rendered as replacing the value at the object's position.  Functions that can
raise a Python exception return `Option`/`Except`, with `none`/`.error`
standing for the raised exception.  Wall-clock details (the timestamp prefix
that `log_action` puts in front of every log message) and rendering are
outside the model; log entries are recorded as their message text.
-/

namespace Assistant

/-- Calendar date as held by a Python `datetime.date` object: `year`, `month`,
`day` as plain naturals.  (`datetime.date` guarantees validity at construction
time; here validity is the separate predicate `PyDate.isValid`.) -/
structure PyDate where
  year : Nat
  month : Nat
  day : Nat
deriving DecidableEq, Repr

/-- Python `calendar` leap-year rule used by `datetime.date`:
divisible by 4 and (not by 100 or by 400). -/
def isLeapYear (y : Nat) : Bool :=
  y % 4 = 0 && (y % 100 ≠ 0 || y % 400 = 0)

/-- Days in a month, as enforced by the `datetime.date` constructor. -/
def daysInMonth (y m : Nat) : Nat :=
  if m = 2 then (if isLeapYear y then 29 else 28)
  else if m = 4 || m = 6 || m = 9 || m = 11 then 30
  else 31

/-- Validity check performed by the `datetime.date` constructor
(`ValueError` outside these bounds): `1 <= year <= 9999`,
`1 <= month <= 12`, `1 <= day <= days in that month`. -/
def PyDate.isValid (d : PyDate) : Bool :=
  1 ≤ d.year && d.year ≤ 9999 &&
  1 ≤ d.month && d.month ≤ 12 &&
  1 ≤ d.day && d.day ≤ daysInMonth d.year d.month

/-- Embedding of `assistant/data_model.py` `Task`: a `@dataclass` with fields
`title`, `description`, `resolved`, `future_date`.  The derived
`DecidableEq` mirrors the structural `__eq__` that `@dataclass` generates. -/
structure Task where
  title : String
  description : String
  resolved : Bool
  future_date : Option PyDate
deriving DecidableEq, Repr

/-- Digit character for `n % 10`, as produced by Python's decimal formatting. -/
def digitChar (n : Nat) : Char :=
  match n with
  | 0 => '0' | 1 => '1' | 2 => '2' | 3 => '3' | 4 => '4'
  | 5 => '5' | 6 => '6' | 7 => '7' | 8 => '8' | 9 => '9'
  | _ => '*'

/-- Test for an ASCII decimal digit, as matched by `\d` in the regexes CPython's
`_strptime` builds for `%Y`, `%m`, `%d`. -/
def isDig (c : Char) : Bool := '0' ≤ c && c ≤ '9'

/-- Numeric value of a digit character. -/
def toDigit (c : Char) : Nat := c.toNat - 48

/-- Decimal rendering of `n` zero-padded to exactly `w` digits (the value is
taken modulo `10 ^ w`), most significant digit first.  This is what `strftime`
produces for the zero-padded directives `%m` and `%d`. -/
def digitsPad : Nat → Nat → List Char
  | 0, _ => []
  | w + 1, n => digitsPad w (n / 10) ++ [digitChar (n % 10)]

/-- Decimal value of a digit string, most significant digit first. -/
def digitsVal (cs : List Char) : Nat :=
  cs.foldl (fun a c => 10 * a + toDigit c) 0

/-- Rendering of `%Y` by glibc `strftime` (the platform `strftime` that
CPython's `datetime.date.strftime` delegates to on Linux): the year is
printed WITHOUT zero padding, so year 50 renders as `"50"`, not `"0050"`.
For the representable range `year <= 9999` this is the minimal decimal
rendering, written here by cases on the magnitude. -/
def formatYearGlibc (y : Nat) : List Char :=
  if y < 10 then digitsPad 1 y
  else if y < 100 then digitsPad 2 y
  else if y < 1000 then digitsPad 3 y
  else digitsPad 4 y

/-- Embedding of `date.strftime("%Y-%m-%d")` from `Task.to_dict`
(`assistant/data_model.py`): unpadded year, zero-padded month and day. -/
def formatIso (d : PyDate) : String :=
  ⟨formatYearGlibc d.year ++ '-' :: digitsPad 2 d.month ++ '-' :: digitsPad 2 d.day⟩

/-- Greedy match of one or two decimal digits, returning the value and the
rest of the input.  This is extensionally the acceptance behavior of the
`%m` / `%d` regexes in CPython's `_strptime` (which are range-limited with
backtracking; since a backtracked second digit would again be a digit and
every use here is followed by a non-digit separator or end of input, the
greedy two-digit read followed by a range check accepts the same strings). -/
def takeUpTo2Digits (cs : List Char) : Option (Nat × List Char) :=
  match cs with
  | c1 :: c2 :: rest =>
    if isDig c1 then
      if isDig c2 then some (10 * toDigit c1 + toDigit c2, rest)
      else some (toDigit c1, c2 :: rest)
    else none
  | [c1] => if isDig c1 then some (toDigit c1, []) else none
  | [] => none

/-- Embedding of `datetime.strptime(s, "%Y-%m-%d").date()` from
`Task.from_dict` (`assistant/data_model.py`): `%Y` matches EXACTLY four
digits (CPython's `_strptime` regex for `Y` is `\d\d\d\d`), `%m` and `%d`
match one or two digits, the whole string must be consumed, and the
resulting numbers must form a valid `datetime.date`
(else `ValueError`, i.e. `none`). -/
def parseIso (s : String) : Option PyDate :=
  match s.data with
  | c1 :: c2 :: c3 :: c4 :: c5 :: rest =>
    if isDig c1 && isDig c2 && isDig c3 && isDig c4 && c5 = '-' then
      let y := digitsVal [c1, c2, c3, c4]
      match takeUpTo2Digits rest with
      | some (m, c6 :: rest2) =>
        if c6 = '-' then
          match takeUpTo2Digits rest2 with
          | some (d, []) =>
            if PyDate.isValid ⟨y, m, d⟩ then some ⟨y, m, d⟩ else none
          | _ => none
        else none
      | _ => none
    else none
  | _ => none

/-- Embedding of `datetime.strptime(s, "%d.%m.%Y").date()` from
`TaskScreen.action_submit` (`assistant/task_screen.py`): one or two digits
for the day, `'.'`, one or two digits for the month, `'.'`, exactly four
digits for the year, end of input, then `datetime.date` validation.
(The input is always pre-stripped by the caller, so the space-padded-day
alternative of the `%d` regex is unreachable.) -/
def parseDMY (s : String) : Option PyDate :=
  match takeUpTo2Digits s.data with
  | some (d, cd :: rest) =>
    if cd = '.' then
      match takeUpTo2Digits rest with
      | some (m, cm :: c1 :: c2 :: c3 :: c4 :: rest2) =>
        if cm = '.' && isDig c1 && isDig c2 && isDig c3 && isDig c4 &&
            rest2.isEmpty then
          let y := digitsVal [c1, c2, c3, c4]
          if PyDate.isValid ⟨y, m, d⟩ then some ⟨y, m, d⟩ else none
        else none
      | _ => none
    else none
  | _ => none

/-- Serialized form of one task as written by `json.dump` in `save_tasks`
(`assistant/persistence.py`): the dict built by `Task.to_dict`, with keys in
the fixed order `title`, `description`, `resolved`, `future_date`.  Since
`json.dump(..., indent=2)` is a deterministic function of this data (dict
insertion order is preserved), equality of `TaskRecord` lists is equality of
the persisted file bytes. -/
structure TaskRecord where
  title : String
  description : String
  resolved : Bool
  future_date : Option String
deriving DecidableEq, Repr

/-- Embedding of `Task.to_dict` (`assistant/data_model.py`): the date is
rendered with `strftime("%Y-%m-%d")`, or `None` when absent. -/
def Task.to_dict (t : Task) : TaskRecord :=
  { title := t.title
    description := t.description
    resolved := t.resolved
    future_date := t.future_date.map formatIso }

/-- Embedding of `Task.from_dict` (`assistant/data_model.py`):
`data.get("future_date")` is truthy (non-`None` and non-empty), then
`strptime("%Y-%m-%d")`; a `ValueError` is swallowed and the date kept `None`. -/
def Task.from_dict (r : TaskRecord) : Task :=
  { title := r.title
    description := r.description
    resolved := r.resolved
    future_date :=
      match r.future_date with
      | some s => if s = "" then none else parseIso s
      | none => none }

/-- Embedding of `save_tasks` (`assistant/persistence.py`): serialize every
task with `Task.to_dict` and overwrite the file wholesale. -/
def save_tasks (tasks : List Task) : List TaskRecord :=
  tasks.map Task.to_dict

/-- Embedding of `load_tasks` (`assistant/persistence.py`) on a readable file:
deserialize every record with `Task.from_dict`.  (The fallback-to-empty path
for a missing or unreadable file is not modelled; the claims quantify over
files previously produced by `save_tasks`.) -/
def load_tasks (records : List TaskRecord) : List Task :=
  records.map Task.from_dict

/-- Whitespace stripped by Python `str.strip()` (ASCII part; the further
Unicode whitespace code points behave identically and are abstracted). -/
def isPySpace (c : Char) : Bool :=
  c = ' ' || c = '\t' || c = '\n' || c = '\r' || c = '\x0b' || c = '\x0c'

/-- Embedding of Python `str.strip()`: drop leading and trailing whitespace. -/
def pyStrip (s : String) : String :=
  ⟨((s.data.dropWhile isPySpace).reverse.dropWhile isPySpace).reverse⟩

/-- Embedding of the `TaskScreenResult` message (`assistant/task_screen.py`). -/
structure TaskScreenResult where
  cancelled : Bool
  title : String
  description : String
  future_date : Option PyDate
deriving DecidableEq, Repr

/-- Embedding of `TaskScreen.action_submit` (`assistant/task_screen.py`),
as a function of the three input-buffer values.  A `some` result means a
`TaskScreenResult(cancelled=False, ...)` message is posted and the screen is
popped; `none` means the early `return` on an empty (stripped) title: no
message is posted, the screen is not popped, and no other state is touched.
The stripped date text, when non-empty, is parsed with
`strptime("%d.%m.%Y")`; a `ValueError` is swallowed
(`future_date` stays `None`). -/
def action_submit (title_value description_value date_value : String) :
    Option TaskScreenResult :=
  let title := pyStrip title_value
  let description := pyStrip description_value
  let date_str := pyStrip date_value
  if title = "" then none
  else
    let future_date := if date_str = "" then none else parseDMY date_str
    some { cancelled := false, title := title, description := description,
           future_date := future_date }

/-- State of `TodoApp` (`assistant/todo_app.py`) as seen by the list
commands: the live ordered task collection `tasks`, the `ListView` selection
index `cursor` (`none` exactly when Python's `self.list_view.index is None`,
in which case `get_selected_index()` returns `-1`), and the action-log
messages (each is persisted by `log_action` with a wall-clock timestamp
prefix, which is outside the model). -/
structure AppState where
  tasks : List Task
  cursor : Option Nat
  logs : List String
deriving DecidableEq, Repr

/-- Embedding of `TodoApp.move_task_up` (`assistant/todo_app.py`): with
`idx = get_selected_index()`, return unchanged when `idx <= 0` (no selection,
or already at the top); otherwise swap the tasks at `idx` and `idx - 1` by
simultaneous assignment and move the cursor to `idx - 1` (the `MoveCursor`
message).  `none` models the `IndexError` Python would raise on an
out-of-range index, which the `ListView` invariant makes unreachable. -/
def move_task_up (s : AppState) : Option AppState :=
  match s.cursor with
  | none => some s
  | some idx =>
    if idx = 0 then some s
    else
      match s.tasks[idx]?, s.tasks[idx - 1]? with
      | some a, some b =>
        some { s with tasks := (s.tasks.set idx b).set (idx - 1) a,
                      cursor := some (idx - 1) }
      | _, _ => none

/-- Embedding of `TodoApp.move_task_down` (`assistant/todo_app.py`): return
unchanged when there is no selection or `idx >= len(tasks) - 1`; otherwise
swap the tasks at `idx` and `idx + 1` and move the cursor to `idx + 1`. -/
def move_task_down (s : AppState) : Option AppState :=
  match s.cursor with
  | none => some s
  | some idx =>
    if s.tasks.length - 1 ≤ idx then some s
    else
      match s.tasks[idx]?, s.tasks[idx + 1]? with
      | some a, some b =>
        some { s with tasks := (s.tasks.set idx b).set (idx + 1) a,
                      cursor := some (idx + 1) }
      | _, _ => none

/-- Embedding of `TodoApp.resolve_or_unresolve_task`
(`assistant/todo_app.py`): with a selected index `idx`, flip the resolved
flag of the task object at `idx` in place, then `pop(idx)` and either
`append` it (just resolved; cursor target
`min(idx, len - 2)` when `len > 1`, else `0`, computed from the length after
the pop-and-reinsert, which equals the original length) or `insert(0, ...)`
it (just unresolved; cursor target `0`), and log
`"Resolved task: '<title>'"` / `"Unresolved task: '<title>'"`.  With no
selection (`idx == -1`) nothing happens. -/
def resolve_or_unresolve_task (s : AppState) : Option AppState :=
  match s.cursor with
  | none => some s
  | some idx =>
    match s.tasks[idx]? with
    | none => none
    | some task =>
      let t : Task := { task with resolved := !task.resolved }
      if t.resolved then
        let tasks1 := s.tasks.eraseIdx idx ++ [t]
        let new_index := if 1 < tasks1.length then min idx (tasks1.length - 2) else 0
        some { tasks := tasks1, cursor := some new_index,
               logs := s.logs ++ ["Resolved task: \x27" ++ task.title ++ "\x27"] }
      else
        let tasks1 := t :: s.tasks.eraseIdx idx
        some { tasks := tasks1, cursor := some 0,
               logs := s.logs ++ ["Unresolved task: \x27" ++ task.title ++ "\x27"] }

/-- Review decision enum from `assistant/review_screen.py`. -/
inductive ReviewDecision where
  | KEEP
  | REOPEN
  | DELETE
deriving DecidableEq, Repr

/-- State of a `ReviewScreen` (`assistant/review_screen.py`): the snapshot
list of (references to) resolved tasks, the decision mapping in snapshot
order, and the screen's own `ListView` index. -/
structure ReviewState where
  tasks : List Task
  decisions : List (Task × ReviewDecision)
  index : Option Nat
deriving DecidableEq, Repr

/-- Hashability of `Task` instances under Python semantics: `Task` is a
`@dataclass` with the defaults `eq=True, frozen=False`
(`assistant/data_model.py`), and for that combination the `dataclasses`
machinery sets `__hash__ = None`, so `hash()` on a `Task` raises
`TypeError: unhashable type: 'Task'`. -/
def taskHashable : Bool := false

/-- Construction of the decisions dict
`{task: ReviewDecision.KEEP for task in self.tasks}` in
`ReviewScreen.__init__`: each insertion hashes the `Task` key, raising
`TypeError` because `Task` is unhashable; the comprehension over an empty
snapshot performs no insertion and succeeds with the empty dict. -/
def buildDecisions (snapshot : List Task) :
    Except String (List (Task × ReviewDecision)) :=
  snapshot.foldlM
    (fun acc task =>
      if taskHashable then Except.ok (acc ++ [(task, ReviewDecision.KEEP)])
      else Except.error "TypeError: unhashable type: \x27Task\x27")
    []

/-- Embedding of `ReviewScreen.__init__` (`assistant/review_screen.py`,
lines 31-36): filter the live list down to the currently resolved tasks
(the snapshot) and build the decisions dict with every decision `KEEP`.
An `Except.error` models the `TypeError` raised while building the dict. -/
def ReviewScreen_init (tasks : List Task) : Except String ReviewState :=
  let snapshot := tasks.filter (fun t => t.resolved)
  match buildDecisions snapshot with
  | Except.error e => Except.error e
  | Except.ok ds => Except.ok { tasks := snapshot, decisions := ds, index := none }

/-- Embedding of `ReviewScreen.on_task_screen_result`
(`assistant/review_screen.py`, lines 174-188): on a cancelled result, or
with no valid selection, nothing happens; otherwise the task object at the
selected snapshot index gets `title` and `description` assigned in place
(the snapshot holds references into the live collection, so the live task is
updated through the same object; no list operation is performed, so the
task's position in the live collection is unchanged).  `future_date` is NOT
assigned, and the decisions mapping is not touched. -/
def ReviewScreen_on_task_screen_result (rs : ReviewState)
    (msg : TaskScreenResult) : ReviewState :=
  if msg.cancelled then rs
  else
    match rs.index with
    | none => rs
    | some j =>
      if rs.tasks.length ≤ j then rs
      else
        match rs.tasks[j]? with
        | none => rs
        | some task =>
          let edited : Task :=
            { task with title := msg.title, description := msg.description }
          { rs with tasks := rs.tasks.set j edited }

/-- Loop body of `TodoApp.on_review_screen_review_complete`
(`assistant/todo_app.py`, lines 358-378) for one `(task, decision)` pair
over the pair (live task list, log messages):
`DELETE` performs `self.tasks.remove(task)` (remove the first
structurally-equal element, Python `list.remove` via dataclass `__eq__`) and
logs `"Deleted task: '<title>'"`; `REOPEN` sets `task.resolved = False` in
place (rendered as updating the first occurrence of the task's value),
removes it and reinserts it at position 0, logging
`"Reopened task: '<title>'"`; `KEEP` does nothing. -/
def applyReviewDecision (st : List Task × List String)
    (p : Task × ReviewDecision) : List Task × List String :=
  match p.2 with
  | ReviewDecision.DELETE =>
    (st.1.erase p.1, st.2 ++ ["Deleted task: \x27" ++ p.1.title ++ "\x27"])
  | ReviewDecision.REOPEN =>
    let t : Task := { p.1 with resolved := false }
    let mutated := st.1.set (st.1.indexOf p.1) t
    (t :: mutated.erase t, st.2 ++ ["Reopened task: \x27" ++ p.1.title ++ "\x27"])
  | ReviewDecision.KEEP => st

/-- Embedding of the whole `TodoApp.on_review_screen_review_complete` loop:
fold `applyReviewDecision` over the decision pairs in snapshot order
(Python dict iteration order is insertion order).  The subsequent single
persist and cursor reset are outside this claim's scope. -/
def on_review_screen_review_complete (tasks : List Task) (logs : List String)
    (decisions : List (Task × ReviewDecision)) : List Task × List String :=
  decisions.foldl applyReviewDecision (tasks, logs)

/-- Concrete sample tasks used by witness and counterexample theorems. -/
def taskA : Task :=
  { title := "A", description := "", resolved := false, future_date := none }

/-- Second sample task. -/
def taskB : Task :=
  { title := "B", description := "", resolved := false, future_date := none }

/-- Sample resolved task. -/
def taskC : Task :=
  { title := "C", description := "", resolved := true, future_date := none }

/-- Sample application state with three tasks and the cursor on index 1. -/
def sampleState : AppState :=
  { tasks := [taskA, taskB, taskC], cursor := some 1, logs := [] }

/-- Sample resolved task with a future date, as seen inside a review. -/
def reviewTask : Task :=
  { title := "a", description := "d", resolved := true,
    future_date := some ⟨2025, 1, 1⟩ }

/-- Sample review-screen state holding `reviewTask` with decision `KEEP`. -/
def reviewSample : ReviewState :=
  { tasks := [reviewTask], decisions := [(reviewTask, ReviewDecision.KEEP)],
    index := some 0 }

/-- Sample submitted edit result carrying a new title, description and date. -/
def editMsg : TaskScreenResult :=
  { cancelled := false, title := "b", description := "c",
    future_date := some ⟨2026, 2, 2⟩ }

/-- Sample task whose future date has a three-digit-or-less year. -/
def taskY50 : Task :=
  { title := "t", description := "", resolved := false,
    future_date := some ⟨50, 1, 2⟩ }

/-- Sample task whose future date has a four-digit year. -/
def task2025 : Task :=
  { title := "t", description := "x", resolved := true,
    future_date := some ⟨2025, 3, 4⟩ }

/-! Helper lemmas about the decimal digit functions and the date formats. -/

lemma isDig_digitChar (n : Nat) (h : n < 10) : isDig (digitChar n) = true := by
  interval_cases n <;> rfl

lemma toDigit_digitChar (n : Nat) (h : n < 10) : toDigit (digitChar n) = n := by
  interval_cases n <;> rfl

lemma digitsPad_two (n : Nat) :
    digitsPad 2 n = [digitChar (n / 10 % 10), digitChar (n % 10)] := rfl

lemma digitsPad_four (n : Nat) :
    digitsPad 4 n =
      [digitChar (n / 10 / 10 / 10 % 10), digitChar (n / 10 / 10 % 10),
        digitChar (n / 10 % 10), digitChar (n % 10)] := rfl

lemma formatYearGlibc_of_ge (y : Nat) (h : 1000 ≤ y) :
    formatYearGlibc y = digitsPad 4 y := by
  unfold formatYearGlibc
  rw [if_neg (by omega), if_neg (by omega), if_neg (by omega)]

lemma daysInMonth_le (y m : Nat) : daysInMonth y m ≤ 31 := by
  unfold daysInMonth
  repeat' split
  all_goals omega

lemma takeUpTo2Digits_pad2 (n : Nat) (h : n < 100) (rest : List Char) :
    takeUpTo2Digits (digitsPad 2 n ++ rest) = some (n, rest) := by
  have h1 : n / 10 % 10 < 10 := Nat.mod_lt _ (by omega)
  have h2 : n % 10 < 10 := Nat.mod_lt _ (by omega)
  simp only [digitsPad_two, List.cons_append, List.nil_append, takeUpTo2Digits,
    isDig_digitChar _ h1, isDig_digitChar _ h2, toDigit_digitChar _ h1,
    toDigit_digitChar _ h2, if_true]
  have : 10 * (n / 10 % 10) + n % 10 = n := by omega
  rw [this]

lemma parseIso_formatIso (d : PyDate) (hv : d.isValid = true)
    (hy : 1000 ≤ d.year) : parseIso (formatIso d) = some d := by
  obtain ⟨y, m, dd⟩ := d
  simp only [PyDate.isValid, Bool.and_eq_true, decide_eq_true_eq] at hv
  have hy4 : y < 10000 := by omega
  have hm : m < 100 := by omega
  have hdd : dd < 100 := by
    have := daysInMonth_le y m
    omega
  have hy1 : y / 10 / 10 / 10 % 10 < 10 := Nat.mod_lt _ (by omega)
  have hy2 : y / 10 / 10 % 10 < 10 := Nat.mod_lt _ (by omega)
  have hy3 : y / 10 % 10 < 10 := Nat.mod_lt _ (by omega)
  have hy0 : y % 10 < 10 := Nat.mod_lt _ (by omega)
  have e1 : formatIso ⟨y, m, dd⟩ =
      ⟨digitsPad 4 y ++ '-' :: (digitsPad 2 m ++ '-' :: digitsPad 2 dd)⟩ := by
    simp [formatIso, formatYearGlibc_of_ge y hy]
  rw [e1]
  have e2 : takeUpTo2Digits (digitsPad 2 dd) = some (dd, []) := by
    have := takeUpTo2Digits_pad2 dd hdd []
    simpa using this
  simp only [parseIso, digitsPad_four, List.cons_append, List.nil_append,
    isDig_digitChar _ hy1, isDig_digitChar _ hy2, isDig_digitChar _ hy3,
    isDig_digitChar _ hy0, toDigit_digitChar _ hy1, toDigit_digitChar _ hy2,
    toDigit_digitChar _ hy3, toDigit_digitChar _ hy0,
    takeUpTo2Digits_pad2 m hm, e2, digitsVal, List.foldl]
  have ey : 10 * (10 * (10 * (10 * 0 + y / 10 / 10 / 10 % 10) + y / 10 / 10 % 10)
      + y / 10 % 10) + y % 10 = y := by omega
  rw [ey]
  have hvb : PyDate.isValid ⟨y, m, dd⟩ = true := by
    simp only [PyDate.isValid, Bool.and_eq_true, decide_eq_true_eq]
    omega
  simp [hvb]

lemma formatIso_ne_empty (d : PyDate) : formatIso d ≠ "" := by
  intro h
  have h2 := congrArg String.data h
  simp [formatIso] at h2

/-! Helper lemmas about lists. -/

lemma lt_length_of_getElem? {α : Type _} {l : List α} {i : Nat} {a : α}
    (h : l[i]? = some a) : i < l.length := by
  by_contra hge
  rw [List.getElem?_eq_none (by omega)] at h
  exact Option.noConfusion h

lemma getElem?_decomp {α : Type _} (l : List α) (i : Nat) (t : α)
    (h : l[i]? = some t) : l = l.take i ++ t :: l.drop (i + 1) := by
  induction l generalizing i with
  | nil => simp at h
  | cons x xs ih =>
    cases i with
    | zero =>
      simp only [List.getElem?_cons_zero, Option.some_inj] at h
      simp [h]
    | succ j =>
      simp only [List.getElem?_cons_succ] at h
      simpa using ih j h

lemma set_set_adjacent {α : Type _} (l : List α) (j : Nat) (x y : α)
    (h : j + 1 < l.length) :
    (l.set (j + 1) x).set j y = l.take j ++ y :: x :: l.drop (j + 2) := by
  induction l generalizing j with
  | nil => simp at h
  | cons a as ih =>
    cases j with
    | zero =>
      cases as with
      | nil => simp at h
      | cons b bs => rfl
    | succ j =>
      have h2 : j + 1 < as.length := by simpa using h
      simpa using ih j h2

lemma append_singleton_perm {α : Type _} (l : List α) (a : α) :
    (l ++ [a]).Perm (a :: l) := by
  have h := @List.perm_middle _ a l []
  rwa [List.append_nil] at h

/-! Helper lemmas characterizing `resolve_or_unresolve_task` on a valid
selection, split on the pre-toggle state of the resolved flag. -/

lemma resolve_eq_of_unresolved (s : AppState) (i : Nat) (t : Task)
    (hc : s.cursor = some i) (ht : s.tasks[i]? = some t)
    (hr : t.resolved = false) :
    resolve_or_unresolve_task s =
      some { tasks := s.tasks.eraseIdx i ++ [{ t with resolved := true }],
             cursor := some (if 1 < s.tasks.length
                             then min i (s.tasks.length - 2) else 0),
             logs := s.logs ++ ["Resolved task: \x27" ++ t.title ++ "\x27"] } := by
  have hlen : i < s.tasks.length := lt_length_of_getElem? ht
  have hlen1 : (s.tasks.eraseIdx i ++ [{ t with resolved := true }]).length =
      s.tasks.length := by
    have := List.length_eraseIdx_add_one hlen
    simp
    omega
  simp only [resolve_or_unresolve_task, hc, ht, hr]
  simp [hlen1]

lemma resolve_eq_of_resolved (s : AppState) (i : Nat) (t : Task)
    (hc : s.cursor = some i) (ht : s.tasks[i]? = some t)
    (hr : t.resolved = true) :
    resolve_or_unresolve_task s =
      some { tasks := { t with resolved := false } :: s.tasks.eraseIdx i,
             cursor := some 0,
             logs := s.logs ++ ["Unresolved task: \x27" ++ t.title ++ "\x27"] } := by
  simp only [resolve_or_unresolve_task, hc, ht, hr]
  simp

lemma getElem?_decomp₂ {α : Type _} (l : List α) (j : Nat) (b a : α)
    (hb : l[j]? = some b) (ha : l[j + 1]? = some a) :
    l = l.take j ++ b :: a :: l.drop (j + 2) := by
  induction l generalizing j with
  | nil => simp at hb
  | cons x xs ih =>
    cases j with
    | zero =>
      simp only [List.getElem?_cons_zero, Option.some_inj] at hb
      simp only [List.getElem?_cons_succ] at ha
      cases xs with
      | nil => simp at ha
      | cons y ys =>
        simp only [List.getElem?_cons_zero, Option.some_inj] at ha
        simp [hb, ha]
    | succ j =>
      simp only [List.getElem?_cons_succ] at hb ha
      simpa using ih j hb ha

/-- C1 theorem (see the claim list): toggling resolve on the task at a valid
selected index flips the flag and relocates the task. -/
theorem resolve_relocates (s : AppState) (i : Nat) (t : Task)
    (hc : s.cursor = some i) (ht : s.tasks[i]? = some t) :
    (resolve_or_unresolve_task s).map AppState.tasks =
      some (if t.resolved
            then { t with resolved := false } :: s.tasks.eraseIdx i
            else s.tasks.eraseIdx i ++ [{ t with resolved := true }]) ∧
    (resolve_or_unresolve_task s).map (fun s1 => s1.tasks.length) =
      some s.tasks.length := by
  have hlen : i < s.tasks.length := lt_length_of_getElem? ht
  have he := List.length_eraseIdx_add_one hlen
  cases hr : t.resolved with
  | false =>
    rw [resolve_eq_of_unresolved s i t hc ht hr]
    refine ⟨by simp, ?_⟩
    simp
    omega
  | true =>
    rw [resolve_eq_of_resolved s i t hc ht hr]
    refine ⟨by simp, ?_⟩
    simp
    omega

/-- Witness for C1: toggling resolve on task `A` at index 0 of
`[A, B, C]` appends the now-resolved `A` at the end, keeping the length. -/
theorem resolve_relocates_witness :
    (resolve_or_unresolve_task
        { tasks := [taskA, taskB, taskC], cursor := some 0, logs := [] }).map
      AppState.tasks = some [taskB, taskC, { taskA with resolved := true }] ∧
    (resolve_or_unresolve_task
        { tasks := [taskA, taskB, taskC], cursor := some 0, logs := [] }).map
      (fun s1 => s1.tasks.length) = some 3 := by
  have h := resolve_relocates
    { tasks := [taskA, taskB, taskC], cursor := some 0, logs := [] } 0 taskA rfl rfl
  exact ⟨h.1.trans (by decide), h.2.trans (by decide)⟩

/-- C5 theorem (see the claim list): the selection cursor after toggle-resolve
lands on `min i (len - 2)` when the task became resolved in a collection of
more than one task, and on `0` when the collection has one task or the task
became unresolved. -/
theorem resolve_cursor_policy (s : AppState) (i : Nat) (t : Task)
    (hc : s.cursor = some i) (ht : s.tasks[i]? = some t) :
    (resolve_or_unresolve_task s).map AppState.cursor =
      some (some (if t.resolved
                  then 0
                  else if 1 < s.tasks.length
                       then min i (s.tasks.length - 2) else 0)) := by
  cases hr : t.resolved with
  | false => rw [resolve_eq_of_unresolved s i t hc ht hr]; simp
  | true => rw [resolve_eq_of_resolved s i t hc ht hr]; simp

/-- Witness for C5: toggling resolve at index 0 of a three-task collection
puts the cursor at `min 0 (3 - 2) = 0`; on a singleton it goes to `0`. -/
theorem resolve_cursor_policy_witness :
    (resolve_or_unresolve_task
        { tasks := [taskA, taskB, taskC], cursor := some 0, logs := [] }).map
      AppState.cursor = some (some 0) := by
  have h := resolve_cursor_policy
    { tasks := [taskA, taskB, taskC], cursor := some 0, logs := [] } 0 taskA rfl rfl
  exact h.trans (by decide)

/-- C6 theorem (see the claim list): move-task-up with the cursor at index 0
and move-task-down with the cursor at index `len - 1` are no-ops, changing
neither the order of the collection nor the cursor (and raising no error). -/
theorem move_boundary_noop (s : AppState) :
    (s.cursor = some 0 → move_task_up s = some s) ∧
    (s.cursor = some (s.tasks.length - 1) → move_task_down s = some s) := by
  constructor
  · intro h
    simp [move_task_up, h]
  · intro h
    simp [move_task_down, h]

/-- Witness for C6: on `[A, B]`, move-up at index 0 and move-down at index 1
both leave the state untouched. -/
theorem move_boundary_noop_witness :
    move_task_up { tasks := [taskA, taskB], cursor := some 0, logs := [] } =
      some { tasks := [taskA, taskB], cursor := some 0, logs := [] } ∧
    move_task_down { tasks := [taskA, taskB], cursor := some 1, logs := [] } =
      some { tasks := [taskA, taskB], cursor := some 1, logs := [] } :=
  ⟨(move_boundary_noop _).1 rfl, (move_boundary_noop _).2 (by decide)⟩

/-- C10 theorem (see the claim list): with any valid selection, move-task-up,
move-task-down and toggle-resolve each preserve the multiset of tasks — the
length is unchanged and no task is created, duplicated or lost; the moves
permute the original list, and toggle-resolve permutes the original list
with exactly the selected task's resolved flag flipped. -/
theorem reorder_preserves_multiset (s : AppState) (i : Nat) (t : Task)
    (hc : s.cursor = some i) (ht : s.tasks[i]? = some t) :
    (∃ s1, move_task_up s = some s1 ∧ s1.tasks.Perm s.tasks ∧
       s1.tasks.length = s.tasks.length) ∧
    (∃ s2, move_task_down s = some s2 ∧ s2.tasks.Perm s.tasks ∧
       s2.tasks.length = s.tasks.length) ∧
    (∃ s3, resolve_or_unresolve_task s = some s3 ∧
       s3.tasks.Perm (s.tasks.set i { t with resolved := !t.resolved }) ∧
       s3.tasks.length = s.tasks.length) := by
  have hlen : i < s.tasks.length := lt_length_of_getElem? ht
  refine ⟨?_, ?_, ?_⟩
  · by_cases hi : i = 0
    · subst hi
      exact ⟨s, by simp [move_task_up, hc], List.Perm.refl _, rfl⟩
    · obtain ⟨j, rfl⟩ : ∃ j, i = j + 1 := ⟨i - 1, by omega⟩
      have hj : j < s.tasks.length := by omega
      obtain ⟨b, hbj⟩ : ∃ b, s.tasks[j]? = some b :=
        ⟨_, List.getElem?_eq_getElem hj⟩
      have hup : move_task_up s =
          some { s with tasks := (s.tasks.set (j + 1) b).set j t,
                        cursor := some j } := by
        simp only [move_task_up, hc, ht]
        simp only [Nat.add_sub_cancel, hbj]
        simp
      have hperm : ((s.tasks.set (j + 1) b).set j t).Perm s.tasks := by
        rw [set_set_adjacent _ j b t (by omega)]
        conv_rhs => rw [getElem?_decomp₂ s.tasks j b t hbj ht]
        exact List.Perm.append_left _ (List.Perm.swap _ _ _)
      exact ⟨_, hup, hperm, hperm.length_eq⟩
  · by_cases hg : s.tasks.length - 1 ≤ i
    · exact ⟨s, by simp [move_task_down, hc, hg], List.Perm.refl _, rfl⟩
    · have hi1 : i + 1 < s.tasks.length := by omega
      obtain ⟨b, hbi⟩ : ∃ b, s.tasks[i + 1]? = some b :=
        ⟨_, List.getElem?_eq_getElem hi1⟩
      have hdown : move_task_down s =
          some { s with tasks := (s.tasks.set i b).set (i + 1) t,
                        cursor := some (i + 1) } := by
        simp only [move_task_down, hc, ht, hbi]
        rw [if_neg hg]
      have hperm : ((s.tasks.set i b).set (i + 1) t).Perm s.tasks := by
        rw [List.set_comm b t s.tasks (by omega), set_set_adjacent _ i t b hi1]
        conv_rhs => rw [getElem?_decomp₂ s.tasks i t b ht hbi]
        exact List.Perm.append_left _ (List.Perm.swap _ _ _)
      exact ⟨_, hdown, hperm, hperm.length_eq⟩
  · have hE : s.tasks.eraseIdx i = s.tasks.take i ++ s.tasks.drop (i + 1) :=
      List.eraseIdx_eq_take_drop_succ ..
    cases hr : t.resolved with
    | false =>
      rw [resolve_eq_of_unresolved s i t hc ht hr]
      simp only [hr, Bool.not_false]
      have hS : s.tasks.set i { t with resolved := true } =
          s.tasks.take i ++ { t with resolved := true } :: s.tasks.drop (i + 1) :=
        List.set_eq_take_cons_drop _ hlen
      have hperm : (s.tasks.eraseIdx i ++ [{ t with resolved := true }]).Perm
          (s.tasks.set i { t with resolved := true }) := by
        rw [hE, hS, List.append_assoc]
        exact List.Perm.append_left _ (append_singleton_perm _ _)
      exact ⟨_, rfl, hperm, hperm.length_eq.trans (by simp)⟩
    | true =>
      rw [resolve_eq_of_resolved s i t hc ht hr]
      simp only [hr, Bool.not_true]
      have hS : s.tasks.set i { t with resolved := false } =
          s.tasks.take i ++ { t with resolved := false } :: s.tasks.drop (i + 1) :=
        List.set_eq_take_cons_drop _ hlen
      have hperm : ({ t with resolved := false } :: s.tasks.eraseIdx i).Perm
          (s.tasks.set i { t with resolved := false }) := by
        rw [hE, hS]
        exact List.perm_middle.symm
      exact ⟨_, rfl, hperm, hperm.length_eq.trans (by simp)⟩

/-- Witness for C10: on `[A, B, C]` with the cursor at index 1, each of the
three operations returns a state whose task list is a permutation of the
expected multiset and has length 3. -/
theorem reorder_preserves_multiset_witness :
    (∃ s1, move_task_up sampleState = some s1 ∧
       s1.tasks.Perm sampleState.tasks ∧
       s1.tasks.length = sampleState.tasks.length) ∧
    (∃ s2, move_task_down sampleState = some s2 ∧
       s2.tasks.Perm sampleState.tasks ∧
       s2.tasks.length = sampleState.tasks.length) ∧
    (∃ s3, resolve_or_unresolve_task sampleState = some s3 ∧
       s3.tasks.Perm (sampleState.tasks.set 1
         { taskB with resolved := !taskB.resolved }) ∧
       s3.tasks.length = sampleState.tasks.length) :=
  reorder_preserves_multiset sampleState 1 taskB rfl rfl

/-- C7 theorem (see the claim list): submitting the Task Edit Screen with a
title that is empty after stripping is silently rejected — no result is
emitted, the screen stays open and no state changes (`none`). -/
theorem submit_empty_title_rejected (tv dv datev : String)
    (h : pyStrip tv = "") : action_submit tv dv datev = none := by
  simp [action_submit, h]

/-- Witness for C7: a whitespace-only title is rejected. -/
theorem submit_empty_title_rejected_witness :
    action_submit "   " "desc" "1.1.2025" = none :=
  submit_empty_title_rejected "   " "desc" "1.1.2025" (by decide)

/-- C8 theorem (see the claim list): when the date field text does not parse
against the fixed day.month.year format, submission still succeeds and the
task data carries no future date — the bad date is silently discarded. -/
theorem submit_bad_date_discarded (tv dv datev : String)
    (h1 : pyStrip tv ≠ "") (h2 : pyStrip datev ≠ "")
    (h3 : parseDMY (pyStrip datev) = none) :
    action_submit tv dv datev =
      some { cancelled := false, title := pyStrip tv,
             description := pyStrip dv, future_date := none } := by
  simp [action_submit, h1, h2, h3]

/-- Witness for C8: `31.02.2025` is not a real calendar date, so `strptime`
raises and the submitted result carries no date. -/
theorem submit_bad_date_discarded_witness :
    action_submit " buy milk " "d" "31.02.2025" =
      some { cancelled := false, title := "buy milk",
             description := "d", future_date := none } := by
  have h := submit_bad_date_discarded " buy milk " "d" "31.02.2025"
    (by decide) (by decide) (by decide)
  exact h.trans (by decide)

/-- C2 theorem (failing evaluation): opening the Review screen on a list
containing one resolved task does not produce the claimed snapshot-plus-KEEP
state; building the decisions dict raises
`TypeError: unhashable type: 'Task'`, because the `@dataclass` `Task` has
`__hash__ = None`. -/
theorem review_init_raises :
    ReviewScreen_init [taskC] =
      Except.error "TypeError: unhashable type: \x27Task\x27" := rfl

lemma mem_set_self {α : Type _} (l : List α) (i : Nat) (a : α)
    (h : i < l.length) : a ∈ l.set i a := by
  induction l generalizing i with
  | nil => simp at h
  | cons x xs ih =>
    cases i with
    | zero => simp
    | succ j =>
      have := ih j (by simpa using h)
      simp [List.mem_cons]
      right
      exact this

/-- C3 theorem (see the claim list): applying one review decision to the live
collection behaves per decision — `DELETE` removes exactly one instance of
the task (wherever it sits) and logs the deletion; `REOPEN` puts the task,
with `resolved` set to false, at index 0, keeps the collection length, and
logs the reopening; `KEEP` changes nothing. -/
theorem review_apply_per_decision (tasks : List Task) (logs : List String)
    (task : Task) (h : task ∈ tasks) :
    (applyReviewDecision (tasks, logs) (task, ReviewDecision.DELETE) =
        (tasks.erase task,
          logs ++ ["Deleted task: \x27" ++ task.title ++ "\x27"]) ∧
      (tasks.erase task).length + 1 = tasks.length) ∧
    ((applyReviewDecision (tasks, logs) (task, ReviewDecision.REOPEN)).1.head? =
        some { task with resolved := false } ∧
      (applyReviewDecision (tasks, logs) (task, ReviewDecision.REOPEN)).1.length =
        tasks.length ∧
      (applyReviewDecision (tasks, logs) (task, ReviewDecision.REOPEN)).2 =
        logs ++ ["Reopened task: \x27" ++ task.title ++ "\x27"]) ∧
    applyReviewDecision (tasks, logs) (task, ReviewDecision.KEEP) =
      (tasks, logs) := by
  refine ⟨⟨rfl, List.length_erase_add_one h⟩, ⟨rfl, ?_, rfl⟩, rfl⟩
  have hidx : tasks.indexOf task < tasks.length := List.indexOf_lt_length.mpr h
  have hmem : ({ task with resolved := false } : Task) ∈
      tasks.set (tasks.indexOf task) { task with resolved := false } :=
    mem_set_self _ _ _ hidx
  have hL := List.length_erase_add_one hmem
  show (({ task with resolved := false } : Task) ::
      ((tasks.set (tasks.indexOf task) { task with resolved := false }).erase
        { task with resolved := false })).length = tasks.length
  simp only [List.length_cons]
  simp only [List.length_set] at hL
  omega

/-- Witness for C3: applying `DELETE`, `REOPEN` and `KEEP` to the resolved
task `C` inside `[A, C]` behaves as stated. -/
theorem review_apply_per_decision_witness :
    (applyReviewDecision ([taskA, taskC], []) (taskC, ReviewDecision.DELETE) =
        ([taskA, taskC].erase taskC,
          [] ++ ["Deleted task: \x27" ++ taskC.title ++ "\x27"]) ∧
      ([taskA, taskC].erase taskC).length + 1 = [taskA, taskC].length) ∧
    ((applyReviewDecision ([taskA, taskC], [])
          (taskC, ReviewDecision.REOPEN)).1.head? =
        some { taskC with resolved := false } ∧
      (applyReviewDecision ([taskA, taskC], [])
          (taskC, ReviewDecision.REOPEN)).1.length = [taskA, taskC].length ∧
      (applyReviewDecision ([taskA, taskC], [])
          (taskC, ReviewDecision.REOPEN)).2 =
        [] ++ ["Reopened task: \x27" ++ taskC.title ++ "\x27"]) ∧
    applyReviewDecision ([taskA, taskC], []) (taskC, ReviewDecision.KEEP) =
      ([taskA, taskC], []) :=
  review_apply_per_decision [taskA, taskC] [] taskC (by decide)

/-- C4 counterexample: at a concrete review state and submitted edit, the
live task after the edit still holds its old future date (2025-01-01), not
the submitted one (2026-02-02), so the claim that title, description AND
future date are all applied is false on the code. -/
theorem review_edit_drops_future_date_cex :
    (ReviewScreen_on_task_screen_result reviewSample editMsg).tasks.map
      Task.future_date = [some ⟨2025, 1, 1⟩] ∧
    editMsg.future_date = some ⟨2026, 2, 2⟩ ∧
    (some (⟨2025, 1, 1⟩ : PyDate) ≠ some (⟨2026, 2, 2⟩ : PyDate)) :=
  ⟨by decide, by decide, by decide⟩

/-- C4 theorem (amended; see the claim list): when a Task Edit Screen opened
from the Review screen is submitted, the submitted title and description are
applied in place to the selected live task immediately, independent of its
review decision (the decisions map is untouched), and the task's position is
unchanged; the submitted future date, however, is NOT applied — the task
keeps its previous `future_date`. -/
theorem review_edit_applies_title_description (rs : ReviewState)
    (msg : TaskScreenResult) (j : Nat) (task : Task)
    (hc : msg.cancelled = false) (hj : rs.index = some j)
    (ht : rs.tasks[j]? = some task) :
    ReviewScreen_on_task_screen_result rs msg =
      { rs with tasks := rs.tasks.set j { task with title := msg.title, description := msg.description } } := by
  have hlen := lt_length_of_getElem? ht
  simp only [ReviewScreen_on_task_screen_result, hc, hj, ht]
  rw [if_neg (by simp)]
  rw [if_neg (by omega)]

/-- Witness for C4 (amended): the sample edit rewrites title and description
of the reviewed task in place and nothing else. -/
theorem review_edit_applies_title_description_witness :
    ReviewScreen_on_task_screen_result reviewSample editMsg =
      { reviewSample with tasks := reviewSample.tasks.set 0 { reviewTask with title := editMsg.title, description := editMsg.description } } :=
  review_edit_applies_title_description reviewSample editMsg 0 reviewTask
    rfl rfl rfl

lemma to_from_to_dict (t : Task)
    (h : ∀ d ∈ t.future_date, d.isValid = true ∧ 1000 ≤ d.year) :
    Task.to_dict (Task.from_dict (Task.to_dict t)) = Task.to_dict t := by
  cases hfd : t.future_date with
  | none => simp [Task.to_dict, Task.from_dict, hfd]
  | some d =>
    obtain ⟨hv, hy⟩ := h d (by simp [hfd])
    simp [Task.to_dict, Task.from_dict, hfd, formatIso_ne_empty d,
      parseIso_formatIso d hv hy]

/-- C9 counterexample: the file saved for a task dated year 50 holds the
date string `"50-01-02"` (glibc `%Y` does not zero-pad), which
`strptime("%Y-%m-%d")` (exactly four year digits) rejects on load, so the
date is silently dropped and the re-saved state differs from the file —
`save(load())` is not idempotent as claimed. -/
theorem save_load_save_not_idempotent_cex :
    save_tasks (load_tasks (save_tasks [taskY50])) ≠ save_tasks [taskY50] := by
  decide

/-- C9 theorem (amended; see the claim list): for every collection whose
future dates are valid and have four-digit years (`1000 ≤ year`), loading a
previously saved state and re-saving it yields byte-identical persisted
state; for years below 1000 the unpadded `strftime` year output fails the
four-digit `strptime` year parse on load, the date is silently dropped and
the re-save differs. -/
theorem save_load_save_idempotent_of_four_digit_years (ts : List Task)
    (h : ∀ t ∈ ts, ∀ d ∈ t.future_date, d.isValid = true ∧ 1000 ≤ d.year) :
    save_tasks (load_tasks (save_tasks ts)) = save_tasks ts := by
  unfold save_tasks load_tasks
  rw [List.map_map, List.map_map]
  refine List.map_congr_left fun t htm => ?_
  have := to_from_to_dict t (h t htm)
  simpa [Function.comp] using this

/-- Witness for C9 (amended): a two-task collection with a 2025 date and no
date round-trips to the identical persisted state. -/
theorem save_load_save_idempotent_witness :
    save_tasks (load_tasks (save_tasks [task2025, taskA])) =
      save_tasks [task2025, taskA] :=
  save_load_save_idempotent_of_four_digit_years [task2025, taskA]
    (by
      intro t htm d hd
      simp only [List.mem_cons, List.not_mem_nil, or_false] at htm
      rcases htm with rfl | rfl
      · rw [Option.mem_def] at hd
        have : d = (⟨2025, 3, 4⟩ : PyDate) := by
          simpa [task2025] using hd.symm
        subst this
        exact ⟨by decide, by decide⟩
      · simp [taskA, Option.mem_def] at hd)

end Assistant
